import Mathlib

/-!
Verification of the `renderDiffRequest` revision-range argument builder.

The source is a pure TypeScript function mapping two revision strings to a
list of command-line argument tokens for a diff tool.  We embed it shallowly:
JavaScript string arrays become `List String`, `Array.prototype.join` becomes
`joinSep`, and the `===` comparisons become decidable string equality.
-/

/-- The sentinel string constant `WORKING_TREE` from the source. -/
def WORKING_TREE : String := "WORKING_TREE"

/-- The sentinel string constant `STAGED_ONLY` from the source. -/
def STAGED_ONLY : String := "STAGED_ONLY"

/-- JavaScript `Array.prototype.join(sep)` restricted to string arrays:
the elements concatenated with `sep` between consecutive elements, and no
separator at all for a singleton or empty array. -/
def joinSep (sep : String) : List String → String
  | [] => ""
  | [x] => x
  | x :: xs => x ++ sep ++ joinSep sep xs

/-- Shallow embedding of the source function

```
const renderDiffRequest = (from: string, to: string) => {
  const start = [from];
  const end = (to === WORKING_TREE || to === STAGED_ONLY) ? [] : [to];
  const range = [...start, ...end].join("..");
  const cached = to === STAGED_ONLY ? ["--cached"] : [];
  return [range, ...cached];
}
```

`from` is renamed `from_` because `from` is a Lean keyword, and `end`
is renamed `ending` for the same reason. -/
def renderDiffRequest (from_ to_ : String) : List String :=
  let start := [from_]
  let ending := if to_ = WORKING_TREE ∨ to_ = STAGED_ONLY then [] else [to_]
  let range := joinSep ".." (start ++ ending)
  let cached := if to_ = STAGED_ONLY then ["--cached"] else []
  [range] ++ cached

/-- Closed form of `renderDiffRequest` when `to` is the `WORKING_TREE`
sentinel: the singleton array gets no `..` separator from `join`. -/
theorem rdr_eq_workingTree (f : String) :
    renderDiffRequest f WORKING_TREE = [f] := by
  unfold renderDiffRequest
  rw [if_pos (Or.inl rfl), if_neg (by decide)]
  rfl

/-- Closed form of `renderDiffRequest` when `to` is the `STAGED_ONLY`
sentinel: the range is `f` alone, followed by the `--cached` flag. -/
theorem rdr_eq_stagedOnly (f : String) :
    renderDiffRequest f STAGED_ONLY = [f, "--cached"] := by
  unfold renderDiffRequest
  rw [if_pos (Or.inr rfl), if_pos rfl]
  rfl

/-- Closed form of `renderDiffRequest` when `to` is neither sentinel. -/
theorem rdr_eq_other (f t : String) (h1 : t ≠ WORKING_TREE)
    (h2 : t ≠ STAGED_ONLY) :
    renderDiffRequest f t = [f ++ ".." ++ t] := by
  unfold renderDiffRequest
  rw [if_neg (fun h => h.elim h1 h2), if_neg h2]
  rfl

/-- Claim C1 (counterexample): the claim that
`build(from, WORKING_TREE) = [from ++ ".."]` is false on the code: at
`from = "abc123"` the result is `["abc123"]`, because JavaScript `join`
inserts no separator into a singleton array. -/
theorem workingTree_claim_counterexample :
    renderDiffRequest "abc123" WORKING_TREE ≠ ["abc123" ++ ".."] := by
  decide

/-- Claim C1 (amended): for every string `from`,
`build(from, WORKING_TREE)` is the single-element list `[from]` — the
range string is `from` alone with no `..` separator, and no `--cached`
flag is appended. -/
theorem workingTree_build_amended (f : String) :
    renderDiffRequest f WORKING_TREE = [f] :=
  rdr_eq_workingTree f

/-- Claim C2 (counterexample): the claim that
`build(from, STAGED_ONLY) = [from ++ "..", "--cached"]` is false on the
code: at `from = "abc123"` the result is `["abc123", "--cached"]`. -/
theorem stagedOnly_claim_counterexample :
    renderDiffRequest "abc123" STAGED_ONLY ≠ ["abc123" ++ "..", "--cached"] := by
  decide

/-- Claim C2 (amended): for every string `from`,
`build(from, STAGED_ONLY)` is the two-element list `[from, "--cached"]`
— the range string is `from` alone with no `..` separator, followed by
the literal flag `--cached`. -/
theorem stagedOnly_build_amended (f : String) :
    renderDiffRequest f STAGED_ONLY = [f, "--cached"] :=
  rdr_eq_stagedOnly f

/-- Claim C3: for all strings `from`, `to` with `to` equal to neither
sentinel, `build(from, to)` is the single-element list
`[from ++ ".." ++ to]`, with no flag appended. -/
theorem regular_build_spec (f t : String) (h1 : t ≠ WORKING_TREE)
    (h2 : t ≠ STAGED_ONLY) :
    renderDiffRequest f t = [f ++ ".." ++ t] :=
  rdr_eq_other f t h1 h2

/-- Witness for claim C3 at the concrete input `("abc123", "def456")`. -/
theorem regular_build_spec_witness :
    ("def456" ≠ WORKING_TREE ∧ "def456" ≠ STAGED_ONLY) ∧
      renderDiffRequest "abc123" "def456" = ["abc123" ++ ".." ++ "def456"] :=
  ⟨⟨by decide, by decide⟩,
    regular_build_spec "abc123" "def456" (by decide) (by decide)⟩

/-- Claim C4: the output list always has length 1 or 2; the length is 2
exactly when `to = STAGED_ONLY`; and whenever the length is 2 the second
element is the literal token `--cached`. -/
theorem argumentList_length_spec (f t : String) :
    ((renderDiffRequest f t).length = 1 ∨ (renderDiffRequest f t).length = 2) ∧
      ((renderDiffRequest f t).length = 2 ↔ t = STAGED_ONLY) ∧
      ((renderDiffRequest f t).length = 2 →
        (renderDiffRequest f t)[1]? = some "--cached") := by
  by_cases h2 : t = STAGED_ONLY
  · subst h2
    rw [rdr_eq_stagedOnly]
    exact ⟨Or.inr rfl, ⟨fun _ => rfl, fun _ => rfl⟩, fun _ => rfl⟩
  · by_cases h1 : t = WORKING_TREE
    · subst h1
      rw [rdr_eq_workingTree]
      refine ⟨Or.inl rfl, ⟨fun h => absurd h (by simp), fun h => absurd h h2⟩,
        fun h => absurd h (by simp)⟩
    · rw [rdr_eq_other f t h1 h2]
      refine ⟨Or.inl rfl, ⟨fun h => absurd h (by simp), fun h => absurd h h2⟩,
        fun h => absurd h (by simp)⟩

/-- Witness for claim C4 at the concrete input `("abc123", STAGED_ONLY)`. -/
theorem argumentList_length_spec_witness :
    ((renderDiffRequest "abc123" STAGED_ONLY).length = 1 ∨
        (renderDiffRequest "abc123" STAGED_ONLY).length = 2) ∧
      ((renderDiffRequest "abc123" STAGED_ONLY).length = 2 ↔
        STAGED_ONLY = STAGED_ONLY) ∧
      ((renderDiffRequest "abc123" STAGED_ONLY).length = 2 →
        (renderDiffRequest "abc123" STAGED_ONLY)[1]? = some "--cached") :=
  argumentList_length_spec "abc123" STAGED_ONLY

/-- Claim C5: the sentinel check inspects only `to`; `from` is never
compared against `WORKING_TREE` or `STAGED_ONLY` and is emitted verbatim
at the start of the first output element.  Formally, for every `from`
(including the sentinel literals themselves) the result is `from`
prepended verbatim to a suffix and a tail that depend on `to` alone. -/
theorem from_emitted_verbatim (f t : String) :
    renderDiffRequest f t =
      (f ++ (if t = WORKING_TREE ∨ t = STAGED_ONLY then "" else ".." ++ t)) ::
        (if t = STAGED_ONLY then ["--cached"] else []) := by
  by_cases h1 : t = WORKING_TREE
  · subst h1
    rw [rdr_eq_workingTree, if_pos (Or.inl rfl), if_neg (by decide),
      String.append_empty]
  · by_cases h2 : t = STAGED_ONLY
    · subst h2
      rw [rdr_eq_stagedOnly, if_pos (Or.inr rfl), if_pos rfl,
        String.append_empty]
    · rw [rdr_eq_other f t h1 h2, if_neg (fun h => h.elim h1 h2), if_neg h2,
        String.append_assoc]

/-- Claim C6: the first element of the output always begins with the
exact `from` string: some suffix completes it to the first element. -/
theorem head_begins_with_from (f t : String) :
    ∃ rest : String, (renderDiffRequest f t).headD "" = f ++ rest := by
  by_cases h1 : t = WORKING_TREE
  · subst h1
    exact ⟨"", by rw [rdr_eq_workingTree, List.headD_cons, String.append_empty]⟩
  · by_cases h2 : t = STAGED_ONLY
    · subst h2
      exact ⟨"", by rw [rdr_eq_stagedOnly, List.headD_cons, String.append_empty]⟩
    · exact ⟨".." ++ t, by
        rw [rdr_eq_other f t h1 h2, List.headD_cons, String.append_assoc]⟩

/-- Claim C7: `renderDiffRequest` is total over the string domain — for
every pair of input strings (including empty and malformed ones) it
produces an argument list, which is moreover never empty; the embedding
has no error branch (its result type is `List String`, not an
`Option`/`Except`). -/
theorem build_total (f t : String) :
    ∃ out : List String, renderDiffRequest f t = out ∧ out ≠ [] :=
  ⟨renderDiffRequest f t, rfl, by unfold renderDiffRequest; exact List.cons_ne_nil _ _⟩

/-- Claim C8: when both inputs are empty, the empty string matches
neither sentinel, so the ordinary-revision case yields `[".."]`. -/
theorem empty_empty_build : renderDiffRequest "" "" = [".."] := by
  decide

/-- Claim C9: `renderDiffRequest` is deterministic and input-determined:
two calls with equal inputs yield equal (deep-equal) output lists; the
result depends on nothing but the two arguments (the embedding is a pure
function of them). -/
theorem build_deterministic (f1 t1 f2 t2 : String) (hf : f1 = f2)
    (ht : t1 = t2) :
    renderDiffRequest f1 t1 = renderDiffRequest f2 t2 := by
  rw [hf, ht]

/-- Witness for claim C9 at the concrete input `("abc123", "def456")`. -/
theorem build_deterministic_witness :
    ("abc123" = "abc123" ∧ "def456" = "def456") ∧
      renderDiffRequest "abc123" "def456" = renderDiffRequest "abc123" "def456" :=
  ⟨⟨rfl, rfl⟩, build_deterministic "abc123" "def456" "abc123" "def456" rfl rfl⟩

/-- Claim C10: the `STAGED_ONLY` output is exactly the `WORKING_TREE`
output with the single token `--cached` appended: the two sentinel cases
produce the identical range string and differ only in the trailing
flag. -/
theorem staged_extends_workingTree (f : String) :
    renderDiffRequest f STAGED_ONLY =
      renderDiffRequest f WORKING_TREE ++ ["--cached"] := by
  rw [rdr_eq_stagedOnly, rdr_eq_workingTree]
  rfl
